import Mathlib

/-!
# Verification of the whisper-speak capture/transcription core

A shallow embedding, in Lean 4, of the parts of the `wkey` package that carry
the repository's invariants:

* the key/label codec and key equality (`src/wkey/key_config.py`:
  `_label_to_key`, `_key_to_label`, `_keys_are_equal`);
* the configuration store and its capture state machine
  (`KeyConfig`: setters, `toggle_auto_enter`, `handle_key_press`,
  `_capture_new_hotkey`, `_capture_new_auto_enter_key`);
* configuration loading (`KeyConfig._load_config`);
* the PyQt listener and processing pipeline (`src/wkey/gui_pyqt.py`:
  `_on_key_press`, `_process_audio`) and the LLM correction helper
  (`src/wkey/utils.py`: `apply_gpt_correction`).

Python strings are modelled as Lean `String`s manipulated through their
character lists, so that slicing, `startswith`, `strip` and `lower` have the
Python sequence semantics.  Machine floats from the audio path are modelled as
rationals; the square root in the RMS computation is eliminated by comparing
the mean square against the squared threshold, which is equivalent for
non-negative reals.  External collaborators (the transcription service, the
correction service, `ffmpeg`, the keystroke injector) enter as explicit
parameters recording their outcome.
-/

/-- Characters of the Python string `s` (Python string ops are sequence ops). -/
def pyChars (s : String) : List Char := s.data

/-- Python `len(s)` for a string. -/
def pyLen (s : String) : Nat := s.data.length

/-- Python `s.startswith(pre)`. -/
def pyStartsWith (s pre : String) : Bool := pre.data.isPrefixOf s.data

/-- Python slicing `s[n:]`. -/
def pyDrop (s : String) (n : Nat) : String := ⟨s.data.drop n⟩

/-- Python `s.strip()` (whitespace trimmed at both ends). -/
def pyStrip (s : String) : String :=
  ⟨((s.data.dropWhile Char.isWhitespace).reverse.dropWhile Char.isWhitespace).reverse⟩

/-- Python `s.lower()` (per-character lowercasing). -/
def pyLower (s : String) : String := ⟨s.data.map Char.toLower⟩

/-- Python substring containment `sub in s`: `sub` occurs contiguously in `s`. -/
def pyContains (s sub : String) : Bool :=
  (List.range (s.data.length + 1)).any fun i => sub.data.isPrefixOf (s.data.drop i)

/-- Decimal digits of `n`, most significant first, as characters; models the
decimal formatting used by Python `str`/f-strings on a non-negative int. -/
def natToChars (n : Nat) : List Char :=
  if n = 0 then ['0']
  else (Nat.digits 10 n).reverse.map fun d => Char.ofNat (48 + d)

/-- Python `str(n)` / `f"{n}"` for a non-negative int. -/
def natToStr (n : Nat) : String := ⟨natToChars n⟩

/-- Numeric value of a decimal digit character. -/
def charToDigit (c : Char) : Nat := c.toNat - 48

/-- Python `int(s)` restricted to the canonical non-negative decimal numerals
this program produces (`int` additionally accepts signs, surrounding
whitespace and underscores, none of which occur in a `vk_<code>` label
generated by `_key_to_label`); `none` models the `ValueError` branch. -/
def parseDecimal (s : String) : Option Nat :=
  if s.data ≠ [] ∧ s.data.all Char.isDigit then
    some (Nat.ofDigits 10 (s.data.map charToDigit).reverse)
  else none

/-- A pynput key: either a member of the `Key` enum (identified by its
`name`), or a `KeyCode` with optional `char` and optional `vk` fields. -/
inductive PKey where
  | named (name : String)
  | code (char : Option String) (vk : Option Nat)
deriving DecidableEq

/-- The member names of the `pynput.keyboard.Key` enum, the table behind
`getattr(Key, label, None)` in `_label_to_key`. -/
def keyNames : List String :=
  ["alt", "alt_l", "alt_r", "alt_gr", "backspace", "caps_lock",
   "cmd", "cmd_l", "cmd_r", "ctrl", "ctrl_l", "ctrl_r",
   "delete", "down", "end", "enter", "esc",
   "f1", "f2", "f3", "f4", "f5", "f6", "f7", "f8", "f9", "f10",
   "f11", "f12", "f13", "f14", "f15", "f16", "f17", "f18", "f19", "f20",
   "home", "insert", "left",
   "media_next", "media_play_pause", "media_previous",
   "media_volume_down", "media_volume_mute", "media_volume_up",
   "menu", "num_lock", "page_down", "page_up", "pause", "print_screen",
   "right", "scroll_lock", "shift", "shift_l", "shift_r",
   "space", "tab", "up"]

/-- `KeyConfig._key_to_label`: a `Key` maps to its enum name, a `KeyCode`
with a `char` to that character, a `KeyCode` with only a `vk` to a
synthetic `vk_<code>` label, and anything else to its `str` representation. -/
def keyToLabel (k : PKey) : String :=
  match k with
  | .named n => n
  | .code (some c) _ => c
  | .code none (some vk) => ⟨'v' :: 'k' :: '_' :: natToChars vk⟩
  | .code none none => "<unmapped>"

/-- `KeyConfig._label_to_key`: enum-name lookup first, then single characters,
then `vk_<n>` labels, with `Key.ctrl_l` as the final fallback (also taken when
`int` raises `ValueError` on the digits of a `vk_` label). -/
def labelToKey (label : String) : PKey :=
  if keyNames.contains label then .named label
  else if pyLen label = 1 then .code (some label) none
  else if pyStartsWith label "vk_" then
    match parseDecimal (pyDrop label 3) with
    | some vk => .code none (some vk)
    | none => .named "ctrl_l"
  else .named "ctrl_l"

/-- `KeyConfig._keys_are_equal`: `False` if either key is `None`, otherwise
direct equality or equality of the labels produced by `_key_to_label`. -/
def keysEqual (k1 k2 : Option PKey) : Bool :=
  match k1, k2 with
  | none, _ => false
  | _, none => false
  | some a, some b => a = b || keyToLabel a = keyToLabel b

/-- The keys the key-event listener can actually deliver: enum members carry a
valid enum name, and a `KeyCode` holds a single-character `char` or, failing
that, a virtual key code. -/
def wellFormedKey : PKey → Bool
  | .named n => keyNames.contains n
  | .code (some c) _ => pyLen c == 1
  | .code none vk => vk.isSome

/-! ## The configuration store (`KeyConfig`) -/

/-- In-memory state of a `KeyConfig` instance: the persisted fields plus the
capture-mode flags and the tracked modifier set.  Persistence (`_save_config`)
only reports a success boolean and mutates no in-memory field, so it is
dropped; callbacks are observed where the GUI wires them (see `onKeyPress`). -/
structure KCState where
  hotkeyLabel : String
  hotkey : PKey
  autoEnter : Bool
  autoEnterKeyLabel : Option String
  autoEnterKey : Option PKey
  language : String
  useLlm : Bool
  autostart : Bool
  sendMode : String
  inChangeMode : Bool
  inAutoEnterKeyChangeMode : Bool
  pressedModifiers : List PKey
deriving DecidableEq

/-- The constructor defaults of `KeyConfig.__init__` after `_load_config` ran
against an absent config file, absent plist and unset `WKEY` variable. -/
def defaultKC : KCState :=
  { hotkeyLabel := "ctrl_l", hotkey := .named "ctrl_l",
    autoEnter := false, autoEnterKeyLabel := none, autoEnterKey := none,
    language := "sv", useLlm := false, autostart := false,
    sendMode := "cmd+enter",
    inChangeMode := false, inAutoEnterKeyChangeMode := false,
    pressedModifiers := [] }

/-- `KeyConfig.set_hotkey` applied to a key object (the capture path). -/
def setHotkeyK (s : KCState) (k : PKey) : KCState :=
  { s with hotkeyLabel := keyToLabel k, hotkey := k }

/-- `KeyConfig.set_auto_enter_key` applied to a key object: binds the key and
also enables auto-enter ("Also enable auto-enter when a key is set"). -/
def setAutoEnterKeyK (s : KCState) (k : PKey) : KCState :=
  { s with autoEnterKeyLabel := some (keyToLabel k), autoEnterKey := some k,
           autoEnter := true }

/-- `KeyConfig.clear_auto_enter_key`: unbinds the key and disables auto-enter. -/
def clearAutoEnterKey (s : KCState) : KCState :=
  { s with autoEnterKeyLabel := none, autoEnterKey := none, autoEnter := false }

/-- `KeyConfig.toggle_auto_enter`: flips the flag (and nothing else). -/
def toggleAutoEnter (s : KCState) : KCState :=
  { s with autoEnter := !s.autoEnter }

/-- `KeyConfig.set_auto_enter`. -/
def setAutoEnter (s : KCState) (b : Bool) : KCState :=
  { s with autoEnter := b }

/-- `KeyConfig._exit_change_mode`. -/
def exitChangeMode (s : KCState) : KCState :=
  { s with inChangeMode := false, pressedModifiers := [] }

/-- `KeyConfig._exit_auto_enter_key_change_mode`. -/
def exitAutoEnterKeyChangeMode (s : KCState) : KCState :=
  { s with inAutoEnterKeyChangeMode := false, pressedModifiers := [] }

/-- `KeyConfig._enter_change_mode`. -/
def enterChangeMode (s : KCState) : KCState :=
  { s with inChangeMode := true }

/-- `KeyConfig._enter_auto_enter_key_change_mode`. -/
def enterAutoEnterKeyChangeMode (s : KCState) : KCState :=
  { s with inAutoEnterKeyChangeMode := true }

/-- Outcome of one `_capture_new_hotkey` / `_capture_new_auto_enter_key`
call: the successor state, the returned boolean (the key was consumed; always
`True` in the source), and whether the exit was a cancellation
(`_exit_*_change_mode(cancelled=True)`). -/
structure CaptureResult where
  state : KCState
  consumed : Bool
  cancelled : Bool
deriving DecidableEq

/-- `KeyConfig._capture_new_auto_enter_key`: Escape cancels, Backspace clears
the binding and disables auto-enter, a key equal to the transcription hotkey
is rejected as a cancellation, anything else is bound.  The `except` clause
guarding the body has no reachable trigger in this model. -/
def captureNewAutoEnterKey (s : KCState) (key : PKey) : CaptureResult :=
  if key = .named "esc" then
    ⟨exitAutoEnterKeyChangeMode s, true, true⟩
  else if key = .named "backspace" then
    ⟨exitAutoEnterKeyChangeMode (clearAutoEnterKey s), true, false⟩
  else if keysEqual (some key) (some s.hotkey) then
    ⟨exitAutoEnterKeyChangeMode s, true, true⟩
  else
    ⟨exitAutoEnterKeyChangeMode (setAutoEnterKeyK s key), true, false⟩

/-- `KeyConfig._capture_new_hotkey`: Escape cancels, a key equal to the bound
auto-enter key is rejected as a cancellation, anything else is bound. -/
def captureNewHotkey (s : KCState) (key : PKey) : CaptureResult :=
  if key = .named "esc" then
    ⟨exitChangeMode s, true, true⟩
  else if keysEqual (some key) s.autoEnterKey then
    ⟨exitChangeMode s, true, true⟩
  else
    ⟨exitChangeMode (setHotkeyK s key), true, false⟩

/-- `CHANGE_MODE_MODIFIERS = {Key.ctrl, Key.ctrl_l, Key.ctrl_r}`. -/
def changeModifiers : List PKey := [.named "ctrl", .named "ctrl_l", .named "ctrl_r"]

/-- `CHANGE_MODE_SHIFT = {Key.shift, Key.shift_l, Key.shift_r}`. -/
def changeShift : List PKey := [.named "shift", .named "shift_l", .named "shift_r"]

/-- `CHANGE_MODE_TRIGGER = KeyCode.from_char('k')`. -/
def changeTrigger : PKey := .code (some "k") none

/-- `AUTO_ENTER_TOGGLE_TRIGGER = KeyCode.from_char('e')`. -/
def autoEnterToggleTrigger : PKey := .code (some "e") none

/-- Python `set.add` on the tracked modifier set. -/
def addModifier (l : List PKey) (k : PKey) : List PKey :=
  if l.contains k then l else k :: l

/-- `KeyConfig.handle_key_press`: tracks modifiers, recognises the
Ctrl+Shift+K (enter change mode) and Ctrl+Shift+E (toggle auto-enter) chords
while not in change mode, and otherwise delegates to `_capture_new_hotkey`.
Returns the successor state and whether the key was consumed. -/
def handleKeyPress (s : KCState) (key : PKey) : KCState × Bool :=
  let s :=
    if changeModifiers.contains key || changeShift.contains key then
      { s with pressedModifiers := addModifier s.pressedModifiers key }
    else s
  if !s.inChangeMode then
    let hasCtrl := changeModifiers.any fun k => s.pressedModifiers.contains k
    let hasShift := changeShift.any fun k => s.pressedModifiers.contains k
    if hasCtrl && hasShift && key = changeTrigger then
      (enterChangeMode s, true)
    else if hasCtrl && hasShift && key = autoEnterToggleTrigger then
      (toggleAutoEnter s, true)
    else
      (s, false)
  else
    let r := captureNewHotkey s key
    (r.state, r.consumed)

/-- `KeyConfig.handle_key_release`: Python `set.discard`. -/
def handleKeyRelease (s : KCState) (key : PKey) : KCState :=
  { s with pressedModifiers := s.pressedModifiers.filter fun k => k ≠ key }

/-- `KeyConfig.is_in_change_mode`. -/
def isInChangeMode (s : KCState) : Bool :=
  s.inChangeMode || s.inAutoEnterKeyChangeMode

/-- The persisted configuration fields of a state, bundled so that theorems
can say "no configuration field changed" in one equation. -/
def configFields (s : KCState) :
    String × PKey × Bool × Option String × Option PKey × String × Bool × Bool × String :=
  (s.hotkeyLabel, s.hotkey, s.autoEnter, s.autoEnterKeyLabel, s.autoEnterKey,
   s.language, s.useLlm, s.autostart, s.sendMode)

/-! ## Configuration loading (`KeyConfig._load_config`) -/

/-- A parsed JSON value, as `json.load` returns it. -/
inductive JVal where
  | jnull
  | jbool (b : Bool)
  | jnum (n : Int)
  | jstr (s : String)
  | jarr (xs : List JVal)
  | jobj (fields : List (String × JVal))

/-- What the persisted config file can look like to `_load_config`: absent,
present but unreadable (`open` raises `IOError`), present but not JSON
(`json.load` raises `JSONDecodeError`), or holding a parsed JSON value. -/
inductive FileContent where
  | missing
  | unreadable
  | badSyntax
  | json (v : JVal)

/-- The Python exceptions the modelled code paths can raise. -/
inductive PyExn where
  | attributeError
  | typeError
  | valueError
deriving DecidableEq

/-- Python truthiness of a JSON value. -/
def jTruthy : JVal → Bool
  | .jnull => false
  | .jbool b => b
  | .jnum n => n != 0
  | .jstr s => s ≠ ""
  | .jarr [] => false
  | .jarr (_ :: _) => true
  | .jobj [] => false
  | .jobj (_ :: _) => true

/-- `config.get(key, deflt)`: dictionary lookup with default on a JSON
object; on any non-dict value `.get` does not exist and the attribute access
raises `AttributeError` (not caught by `except (JSONDecodeError, IOError)`).
The model assumes distinct keys in the object, as `json.dump` produces. -/
def dictGet (v : JVal) (key : String) (deflt : JVal) : Except PyExn JVal :=
  match v with
  | .jobj fields =>
      match fields.lookup key with
      | some x => .ok x
      | none => .ok deflt
  | _ => .error .attributeError

/-- The in-memory fields right after `_load_config` returns.  The four fields
that are stored exactly as read keep their dynamic (JSON) type; the built-in
defaults appear as the corresponding JSON values. -/
structure LoadedConfig where
  hotkeyLabel : String
  hotkey : PKey
  autoEnter : JVal
  autoEnterKeyLabel : JVal
  autoEnterKey : Option PKey
  language : JVal
  useLlm : JVal
  autostart : Bool
  sendMode : JVal

/-- `KeyConfig._load_config`.  `content` is the state of `~/.wkey_config`,
`plistExists` whether the LaunchAgent plist is present (line 86 overwrites the
autostart flag with it), `envWkey` the `WKEY` environment variable.  A read or
JSON-syntax failure is caught and defaults kept; an `AttributeError` from
`.get` on a non-dict JSON value, or a `TypeError` from `getattr` on a
non-string label, escapes the `except (json.JSONDecodeError, IOError)` clause
and propagates to the caller. -/
def loadConfig (content : FileContent) (plistExists : Bool)
    (envWkey : Option String) : Except PyExn LoadedConfig := do
  let (hotkeyRaw, autoEnterRaw, autoEnterKeyRaw, languageRaw, useLlmRaw, sendModeRaw) ←
    match content with
    | .missing =>
        pure (JVal.jnull, JVal.jbool false, JVal.jnull, JVal.jstr "sv",
              JVal.jbool false, JVal.jstr "cmd+enter")
    | .unreadable =>
        pure (JVal.jnull, JVal.jbool false, JVal.jnull, JVal.jstr "sv",
              JVal.jbool false, JVal.jstr "cmd+enter")
    | .badSyntax =>
        pure (JVal.jnull, JVal.jbool false, JVal.jnull, JVal.jstr "sv",
              JVal.jbool false, JVal.jstr "cmd+enter")
    | .json v => do
        let h ← dictGet v "hotkey" .jnull
        let ae ← dictGet v "auto_enter" (.jbool false)
        let aek ← dictGet v "auto_enter_key" .jnull
        let lang ← dictGet v "language" (.jstr "sv")
        let llm ← dictGet v "use_llm" (.jbool false)
        let _ ← dictGet v "autostart" (.jbool false)
        let sm ← dictGet v "send_mode" (.jstr "cmd+enter")
        pure (h, ae, aek, lang, llm, sm)
  let autostart := plistExists
  let hotkeyLabel : String ←
    match hotkeyRaw with
    | .jnull => pure (envWkey.getD "ctrl_l")
    | .jstr s => pure s
    | _ => throw .typeError
  let hotkey := labelToKey hotkeyLabel
  let autoEnterKey : Option PKey ←
    if jTruthy autoEnterKeyRaw then
      match autoEnterKeyRaw with
      | .jstr s => pure (some (labelToKey s))
      | _ => throw .typeError
    else
      pure none
  pure { hotkeyLabel, hotkey, autoEnter := autoEnterRaw,
         autoEnterKeyLabel := autoEnterKeyRaw, autoEnterKey,
         language := languageRaw, useLlm := useLlmRaw, autostart,
         sendMode := sendModeRaw }

/-- The loaded configuration all of whose fields hold the built-in defaults
(the hotkey label falling back to `WKEY` or `"ctrl_l"`, the autostart flag to
the plist check of line 86). -/
def defaultLoaded (plistExists : Bool) (envWkey : Option String) : LoadedConfig :=
  { hotkeyLabel := envWkey.getD "ctrl_l",
    hotkey := labelToKey (envWkey.getD "ctrl_l"),
    autoEnter := .jbool false, autoEnterKeyLabel := .jnull, autoEnterKey := none,
    language := .jstr "sv", useLlm := .jbool false, autostart := plistExists,
    sendMode := .jstr "cmd+enter" }

/-! ## The PyQt listener and transcription pipeline (`gui_pyqt.py`) -/

/-- The status values driving the presentation adapter. -/
inductive Status where
  | ready
  | recording
  | processing
deriving DecidableEq

/-- One audio frame block, its samples as rationals (the float samples
delivered by the audio callback). -/
abbrev Frame := List ℚ

/-- State of `WKeyGUI` as far as the listener and pipeline touch it. -/
structure GuiState where
  status : Status
  recording : Bool
  audioData : List Frame
  recordingWithAutoEnter : Bool
  guiHotkeyChangeMode : Bool
  guiAutoEnterKeyChangeMode : Bool
  kc : KCState
deriving DecidableEq

/-- Python `key == other` for the pynput keys this program compares
(`key == get_hotkey()`, `key == get_auto_enter_key()`); comparison with
`None` is `False`. -/
def pyKeyEq (key : PKey) (other : Option PKey) : Bool :=
  match other with
  | some k => key = k
  | none => false

/-- `WKeyGUI._on_key_press`.  The two GUI capture modes delegate to the
`KeyConfig` capture handlers, whose bind/clear callbacks
(`_on_hotkey_change`, `_on_auto_enter_key_change`) clear the GUI flag, so the
flag survives exactly the cancelled exits.  Then `handle_key_press` may
consume the key, change mode swallows it, and finally a key equal to the
primary hotkey or to the auto-enter key starts a recording session —
unconditionally: the branch reads neither `_recording` nor `_status`. -/
def onKeyPress (g : GuiState) (key : PKey) : GuiState :=
  if g.guiHotkeyChangeMode then
    let r := captureNewHotkey g.kc key
    { g with kc := r.state, guiHotkeyChangeMode := r.cancelled }
  else if g.guiAutoEnterKeyChangeMode then
    let r := captureNewAutoEnterKey g.kc key
    { g with kc := r.state, guiAutoEnterKeyChangeMode := r.cancelled }
  else
    let (kc, consumed) := handleKeyPress g.kc key
    if consumed then { g with kc }
    else if isInChangeMode kc then { g with kc }
    else if pyKeyEq key (some kc.hotkey) then
      { g with kc, recording := true, recordingWithAutoEnter := false,
               audioData := [], status := .recording }
    else if pyKeyEq key kc.autoEnterKey then
      { g with kc, recording := true, recordingWithAutoEnter := true,
               audioData := [], status := .recording }
    else { g with kc }

/-- `HALLUCINATION_PHRASES` of `_process_audio`. -/
def hallucinationPhrases : List String :=
  ["tack alla som tittat", "thanks for watching", "thank you for watching",
   "subscribe", "like and subscribe", "see you next time", "bye bye",
   "goodbye", "music", "applause", "[music]", "[applause]", "you",
   "...", "the end", "subtitles by", "captions by"]

/-- Outcomes of the external collaborators consulted during one processing
run: whether the `ffmpeg` re-encode succeeds, what `apply_whisper` returns or
raises, what the chat-completion call inside `apply_gpt_correction` returns
or raises, and whether the keystroke injection raises. -/
structure PEnv where
  ffmpegOk : Bool
  transcribeResult : Except String String
  correctResult : Except String String
  typingRaises : Bool

/-- The configuration snapshot `_process_audio` reads through the store. -/
structure PConfig where
  language : String
  useLlm : Bool
  sendMode : String
deriving DecidableEq

/-- `wkey.utils.apply_gpt_correction`: a falsy or whitespace-only instruction
returns the transcript before the client is even created; otherwise the
service is called and its stripped answer returned, any exception falling
back to the original transcript.  The second component records whether the
external service was contacted. -/
def applyGptCorrection (transcript : String) (instruction : Option String)
    (svc : Except String String) : String × Bool :=
  match instruction with
  | none => (transcript, false)
  | some inst =>
      if inst = "" ∨ pyStrip inst = "" then (transcript, false)
      else
        match svc with
        | .ok answer => (pyStrip answer, true)
        | .error _ => (transcript, true)

/-- `wkey.utils.process_transcript`. -/
def processTranscript (transcript : String) : String := transcript ++ " "

/-- How the body of `_process_audio` (the code inside the `try`) can end: an
early `return` after `_set_status(STATUS_READY)`, an exception reaching the
`except` clauses, or running to the end.  Each carries whether the
transcription service had been invoked and what was typed. -/
inductive StepExit where
  | earlyReady (whisperCalled : Bool)
  | raised (msg : String) (whisperCalled : Bool) (typed : Option String)
  | completed (whisperCalled : Bool) (typed : Option String)
deriving DecidableEq

/-- What one `_process_audio` run leaves behind: the final status, whether
the transcription service was invoked, what was typed into the focused
application, and the exception propagated to the caller, if any. -/
structure PAResult where
  status : Status
  whisperCalled : Bool
  typed : Option String
  propagated : Option String
deriving DecidableEq

/-- The `try` body of `_process_audio`, step by step: empty-input check,
duration gate, RMS gate (`sqrt m < 0.005` rewritten as `m < 0.005²`, which is
equivalent for the non-negative mean square), encode (the `ffmpeg` failure
falls back to the WAV file and is otherwise unobservable), transcription with
its recoverable-error classification, length gate, hallucination filter,
optional LLM correction, typing.  The auto-enter submit block is wrapped in
its own catch-all `except`, so it cannot end the body abnormally. -/
def processAudioSteps (audioData : List Frame) (cfg : PConfig)
    (prompt : Option String) (env : PEnv) : StepExit :=
  if audioData = [] then .earlyReady false
  else
    let samples := audioData.flatten
    let audioDuration : ℚ := (samples.length : ℚ) / 16000
    if audioDuration < 1/2 then .earlyReady false
    else
      let meanSquare : ℚ := ((samples.map fun x => x * x).sum) / (samples.length : ℚ)
      if meanSquare < (5/1000) ^ 2 then .earlyReady false
      else
        match env.transcribeResult with
        | .error e =>
            if pyContains e "Invalid" || pyContains (pyLower e) "audio" then
              .earlyReady true
            else
              .raised e true none
        | .ok transcript =>
            if transcript = "" ∨ pyLen (pyStrip transcript) < 2 then
              .earlyReady true
            else
              let transcriptLower := pyLower (pyStrip transcript)
              if hallucinationPhrases.any fun p =>
                  transcriptLower = p || pyStartsWith transcriptLower p then
                .earlyReady true
              else if transcript ≠ "" then
                let corrected :=
                  if cfg.useLlm ∧ prompt.isSome ∧ prompt ≠ some "" then
                    (applyGptCorrection transcript prompt env.correctResult).1
                  else transcript
                let processed := processTranscript corrected
                if env.typingRaises then .raised "typing" true none
                else .completed true (some processed)
              else .completed true none

/-- `WKeyGUI._process_audio`: the `try` body under
`except ValueError: pass`, `except Exception: print`, `finally:
_set_status(STATUS_READY)`.  Every exception the body can raise is an
`Exception` subclass, so nothing escapes, and the `finally` clause forces the
status to Ready on every path. -/
def processAudio (audioData : List Frame) (cfg : PConfig)
    (prompt : Option String) (env : PEnv) : PAResult :=
  match processAudioSteps audioData cfg prompt env with
  | .earlyReady w => ⟨.ready, w, none, none⟩
  | .raised _ w typed => ⟨.ready, w, typed, none⟩
  | .completed w typed => ⟨.ready, w, typed, none⟩

/-! ## Distinguished states used by the theorems -/

/-- The flag/key consistency stated in the data-model invariant: the
auto-enter enabled flag agrees with whether an auto-enter key is bound. -/
def aeConsistent (s : KCState) : Prop :=
  s.autoEnter = s.autoEnterKey.isSome

/-- A `WKeyGUI` in the middle of a processing run: status Processing, the
recording switch off, the frames of the finished session still in the buffer,
no capture mode active, the default configuration (primary hotkey `ctrl_l`). -/
def guiProcessingState : GuiState :=
  { status := .processing, recording := false,
    audioData := [[1]], recordingWithAutoEnter := false,
    guiHotkeyChangeMode := false, guiAutoEnterKeyChangeMode := false,
    kc := defaultKC }

/-- A `KeyConfig` with the default primary hotkey (`ctrl_l`) and the
auto-enter key bound to `a`, used to exercise the conflict rejections. -/
def conflictDemoState : KCState :=
  { defaultKC with
    autoEnterKeyLabel := some "a", autoEnterKey := some (.code (some "a") none),
    autoEnter := true }

/-- `guiProcessingState` with the auto-enter key additionally bound to `a`
(the configuration of `conflictDemoState`), for exercising the auto-enter
trigger branch of `_on_key_press`. -/
def guiProcessingStateAE : GuiState :=
  { guiProcessingState with kc := conflictDemoState }

/-- A `KeyConfig` in auto-enter capture mode whose primary hotkey is the
Backspace key and whose auto-enter key is currently bound to `a`. -/
def aeCaptureState : KCState :=
  { defaultKC with
    hotkeyLabel := "backspace", hotkey := .named "backspace",
    autoEnterKeyLabel := some "a", autoEnterKey := some (.code (some "a") none),
    autoEnter := true, inAutoEnterKeyChangeMode := true }

/-! ## Theorems -/

/-- **C1.** For every frame list and every outcome of the processing task
(empty input, duration gate, silence gate, short transcript, hallucination
filter, service error, or successful typing), `_process_audio` terminates with
the status set back to Ready and propagates no failure to its caller: each
early gate returns after `_set_status(STATUS_READY)`, each exception the body
can raise is an `Exception` caught by the surrounding handlers, and the
`finally` clause forces Ready on every path. -/
theorem processAudio_ends_ready (audioData : List Frame) (cfg : PConfig)
    (prompt : Option String) (env : PEnv) :
    (processAudio audioData cfg prompt env).status = .ready ∧
    (processAudio audioData cfg prompt env).propagated = none := by
  unfold processAudio
  cases processAudioSteps audioData cfg prompt env <;> exact ⟨rfl, rfl⟩

/-- **C2, counterexample.** With status Processing, no capture mode active and
the default configuration, a key-down of the primary hotkey (`ctrl_l`) is NOT
ignored: `_on_key_press` has no guard on `_recording` or `_status`, so it
starts a new recording session, clears the accumulated audio frames, and
moves the status to Recording — the pipeline state changes. -/
theorem trigger_during_processing_not_ignored :
    guiProcessingState.status = .processing ∧
    guiProcessingState.recording = false ∧
    guiProcessingState.audioData ≠ [] ∧
    (onKeyPress guiProcessingState (.named "ctrl_l")).recording = true ∧
    (onKeyPress guiProcessingState (.named "ctrl_l")).audioData = [] ∧
    (onKeyPress guiProcessingState (.named "ctrl_l")).status = .recording := by
  decide

/-- **C2, amended.** A trigger key-down is honored regardless of the current
status: whenever no GUI capture mode is active, `handle_key_press` does not
consume the key and no config change mode is active, `_on_key_press`
(re)starts a recording session — it sets the recording switch, clears the
accumulated frames and sets status Recording, even while status is Recording
or Processing.  This holds for both triggers: a key equal to the primary
hotkey (marking the session as plain), and — mirroring the `elif` — a key
unequal to the primary hotkey but equal to the bound auto-enter key (marking
the session as auto-enter). -/
theorem trigger_keydown_honored_in_any_status (g : GuiState) (key : PKey)
    (h1 : g.guiHotkeyChangeMode = false)
    (h2 : g.guiAutoEnterKeyChangeMode = false)
    (h3 : (handleKeyPress g.kc key).2 = false)
    (h4 : isInChangeMode (handleKeyPress g.kc key).1 = false) :
    (pyKeyEq key (some (handleKeyPress g.kc key).1.hotkey) = true →
      (onKeyPress g key).recording = true ∧
      (onKeyPress g key).audioData = [] ∧
      (onKeyPress g key).status = .recording ∧
      (onKeyPress g key).recordingWithAutoEnter = false) ∧
    (pyKeyEq key (some (handleKeyPress g.kc key).1.hotkey) = false →
      pyKeyEq key (handleKeyPress g.kc key).1.autoEnterKey = true →
      (onKeyPress g key).recording = true ∧
      (onKeyPress g key).audioData = [] ∧
      (onKeyPress g key).status = .recording ∧
      (onKeyPress g key).recordingWithAutoEnter = true) := by
  rcases hp : handleKeyPress g.kc key with ⟨kc, consumed⟩
  rw [hp] at h3 h4
  simp only at h3 h4
  constructor
  · intro h5
    simp only at h5
    simp [onKeyPress, h1, h2, hp, h3, h4, h5]
  · intro h5 h6
    simp only at h5 h6
    simp [onKeyPress, h1, h2, hp, h3, h4, h5, h6]

/-- **C2, witness for the amended theorem.** Two concrete Processing-status
states: the primary hotkey (`ctrl_l`) key-down restarts a plain recording,
and with the auto-enter key bound to `a`, the `a` key-down restarts an
auto-enter recording. -/
theorem trigger_keydown_honored_witness :
    ((onKeyPress guiProcessingState (.named "ctrl_l")).recording = true ∧
     (onKeyPress guiProcessingState (.named "ctrl_l")).audioData = [] ∧
     (onKeyPress guiProcessingState (.named "ctrl_l")).status = .recording ∧
     (onKeyPress guiProcessingState (.named "ctrl_l")).recordingWithAutoEnter = false) ∧
    ((onKeyPress guiProcessingStateAE (.code (some "a") none)).recording = true ∧
     (onKeyPress guiProcessingStateAE (.code (some "a") none)).audioData = [] ∧
     (onKeyPress guiProcessingStateAE (.code (some "a") none)).status = .recording ∧
     (onKeyPress guiProcessingStateAE (.code (some "a") none)).recordingWithAutoEnter = true) :=
  ⟨(trigger_keydown_honored_in_any_status guiProcessingState (.named "ctrl_l")
      (by decide) (by decide) (by decide) (by decide)).1 (by decide),
   (trigger_keydown_honored_in_any_status guiProcessingStateAE (.code (some "a") none)
      (by decide) (by decide) (by decide) (by decide)).2 (by decide) (by decide)⟩

/-- **C4, counterexample.** From the default state, `set_auto_enter_key('a')`
binds the key and raises the flag, but a following `toggle_auto_enter` (the
Ctrl+Shift+E path of `handle_key_press` calls exactly this) lowers the flag
while the key stays bound: the flag IS changeable independently of the key,
and the claimed invariant fails in a state reachable through the listed
public operations. -/
theorem toggle_breaks_autoEnter_consistency :
    (setAutoEnterKeyK defaultKC (.code (some "a") none)).autoEnterKey
        = some (.code (some "a") none) ∧
    (toggleAutoEnter (setAutoEnterKeyK defaultKC (.code (some "a") none))).autoEnterKey
        = some (.code (some "a") none) ∧
    (toggleAutoEnter (setAutoEnterKeyK defaultKC (.code (some "a") none))).autoEnter
        = false ∧
    ¬ aeConsistent (toggleAutoEnter (setAutoEnterKeyK defaultKC (.code (some "a") none))) := by
  refine ⟨rfl, rfl, rfl, ?_⟩
  unfold aeConsistent
  decide

/-- **C4, amended.** The two key-binding operations do keep the flag and the
key consistent: `set_auto_enter_key` leaves the flag true with the key bound,
and `clear_auto_enter_key` leaves the flag false with the key unbound — in
any state.  Only `toggle_auto_enter` (reachable directly and through the
Ctrl+Shift+E chord in `handle_key_press`) flips the flag independently of the
key. -/
theorem set_clear_establish_autoEnter_consistency (s : KCState) (k : PKey) :
    (setAutoEnterKeyK s k).autoEnter = true ∧
    (setAutoEnterKeyK s k).autoEnterKey = some k ∧
    aeConsistent (setAutoEnterKeyK s k) ∧
    (clearAutoEnterKey s).autoEnter = false ∧
    (clearAutoEnterKey s).autoEnterKey = none ∧
    aeConsistent (clearAutoEnterKey s) :=
  ⟨rfl, rfl, rfl, rfl, rfl, rfl⟩

/-- **C6, counterexample.** When the primary hotkey is Backspace, a Backspace
pressed during auto-enter capture equals the bound primary hotkey under
`keysEqual`, yet the capture is NOT rejected: the Backspace branch runs
first, CLEARS the bound auto-enter key (from `a` to none), disables
auto-enter, and exits the capture without cancellation. -/
theorem backspace_conflict_clears_binding :
    keysEqual (some (.named "backspace")) (some aeCaptureState.hotkey) = true ∧
    aeCaptureState.inAutoEnterKeyChangeMode = true ∧
    aeCaptureState.autoEnterKey = some (.code (some "a") none) ∧
    (captureNewAutoEnterKey aeCaptureState (.named "backspace")).state.autoEnterKey = none ∧
    (captureNewAutoEnterKey aeCaptureState (.named "backspace")).state.autoEnter = false ∧
    (captureNewAutoEnterKey aeCaptureState (.named "backspace")).cancelled = false := by
  decide

/-- **C6, amended.** During auto-enter capture a candidate equal (by
`keysEqual`) to the bound primary hotkey is rejected — return to Idle as a
cancellation with every binding unchanged — for every candidate except
Backspace, whose clear-the-binding branch runs before the conflict check
(Escape also lands on a cancelled exit).  Symmetrically, during hotkey
capture a candidate equal to the bound auto-enter key is always rejected with
the primary hotkey unchanged. -/
theorem capture_conflict_rejects (s : KCState) (k : PKey) :
    (k ≠ .named "backspace" → keysEqual (some k) (some s.hotkey) = true →
      captureNewAutoEnterKey s k = ⟨exitAutoEnterKeyChangeMode s, true, true⟩) ∧
    (keysEqual (some k) s.autoEnterKey = true →
      captureNewHotkey s k = ⟨exitChangeMode s, true, true⟩) ∧
    (exitAutoEnterKeyChangeMode s).autoEnterKey = s.autoEnterKey ∧
    (exitAutoEnterKeyChangeMode s).autoEnterKeyLabel = s.autoEnterKeyLabel ∧
    (exitAutoEnterKeyChangeMode s).inAutoEnterKeyChangeMode = false ∧
    (exitChangeMode s).hotkey = s.hotkey ∧
    (exitChangeMode s).hotkeyLabel = s.hotkeyLabel ∧
    (exitChangeMode s).inChangeMode = false := by
  refine ⟨?_, ?_, rfl, rfl, rfl, rfl, rfl, rfl⟩
  · intro hbs hk
    unfold captureNewAutoEnterKey
    by_cases hesc : k = .named "esc"
    · subst hesc; rw [if_pos rfl]
    · rw [if_neg hesc, if_neg hbs, if_pos hk]
  · intro hk
    unfold captureNewHotkey
    by_cases hesc : k = .named "esc"
    · subst hesc; rw [if_pos rfl]
    · rw [if_neg hesc, if_pos hk]

/-- **C9.** Escape during either capture mode always exits as a cancellation;
the exit clears only the mode flag and the tracked modifier set, leaving
every configuration field (primary hotkey and label, auto-enter key, label
and flag, language, LLM toggle, send mode, autostart) unchanged. -/
theorem escape_cancels_without_config_mutation (s : KCState) :
    captureNewHotkey s (.named "esc") = ⟨exitChangeMode s, true, true⟩ ∧
    captureNewAutoEnterKey s (.named "esc") = ⟨exitAutoEnterKeyChangeMode s, true, true⟩ ∧
    configFields (exitChangeMode s) = configFields s ∧
    configFields (exitAutoEnterKeyChangeMode s) = configFields s ∧
    (exitChangeMode s).inChangeMode = false ∧
    (exitAutoEnterKeyChangeMode s).inAutoEnterKeyChangeMode = false := by
  refine ⟨?_, ?_, rfl, rfl, rfl, rfl⟩
  · unfold captureNewHotkey
    rw [if_pos rfl]
  · unfold captureNewAutoEnterKey
    rw [if_pos rfl]

/-- **C10.** A `None`, empty or whitespace-only instruction makes
`apply_gpt_correction` return the transcript unchanged before the client is
even constructed: the external correction service is never contacted. -/
theorem correction_skipped_for_blank_instruction (transcript : String)
    (svc : Except String String) :
    applyGptCorrection transcript none svc = (transcript, false) ∧
    ∀ inst : String, pyStrip inst = "" →
      applyGptCorrection transcript (some inst) svc = (transcript, false) := by
  refine ⟨rfl, ?_⟩
  intro inst h
  simp [applyGptCorrection, h]

/-- **C10, witness.** Concrete blank instructions: `None` and `" \t "`. -/
theorem correction_skipped_for_blank_instruction_witness :
    applyGptCorrection "hello" none (.ok "changed") = ("hello", false) ∧
    applyGptCorrection "hello" (some " \t ") (.ok "changed") = ("hello", false) :=
  ⟨(correction_skipped_for_blank_instruction "hello" (.ok "changed")).1,
   (correction_skipped_for_blank_instruction "hello" (.ok "changed")).2 " \t " (by decide)⟩

/-- **C3, counterexample.** A persisted file holding valid JSON whose top
level is not an object — here the JSON array `[]` — makes `_load_config`
raise `AttributeError` at the first `config.get` call, which
`except (json.JSONDecodeError, IOError)` does not catch: loading arbitrary
data CAN raise to the caller. -/
theorem loadConfig_nonobject_raises :
    loadConfig (.json (.jarr [])) false none = .error .attributeError := rfl

/-- **C3, amended.** For a configuration file that is missing, unreadable
(`IOError`) or not syntactically valid JSON (`JSONDecodeError`), loading
never raises and every field keeps its built-in default (the hotkey label
falling back to the `WKEY` environment variable or `ctrl_l`, the autostart
flag synced with the plist check). -/
theorem loadConfig_read_failures_keep_defaults (plistExists : Bool)
    (envWkey : Option String) :
    loadConfig .missing plistExists envWkey = .ok (defaultLoaded plistExists envWkey) ∧
    loadConfig .unreadable plistExists envWkey = .ok (defaultLoaded plistExists envWkey) ∧
    loadConfig .badSyntax plistExists envWkey = .ok (defaultLoaded plistExists envWkey) :=
  ⟨rfl, rfl, rfl⟩

/-- A one-frame buffer flattens to that frame. -/
theorem flatten_singleton (l : List ℚ) : ([l] : List Frame).flatten = l := by
  rw [List.flatten_cons, List.flatten_nil, List.append_nil]

/-- **C5.** The duration gate (fewer than 0.5 s of samples at 16000 Hz on a
non-empty frame list) and the silence gate (sufficient duration but mean
square below the squared 0.005 RMS threshold) both return with status Ready
without ever consulting the transcription service. -/
theorem quality_gates_skip_transcription (audioData : List Frame) (cfg : PConfig)
    (prompt : Option String) (env : PEnv) :
    (audioData ≠ [] →
      (audioData.flatten.length : ℚ) / 16000 < 1/2 →
      (processAudio audioData cfg prompt env).status = .ready ∧
      (processAudio audioData cfg prompt env).whisperCalled = false) ∧
    (1/2 ≤ (audioData.flatten.length : ℚ) / 16000 →
      (audioData.flatten.map fun x => x * x).sum / (audioData.flatten.length : ℚ)
          < (5/1000) ^ 2 →
      (processAudio audioData cfg prompt env).status = .ready ∧
      (processAudio audioData cfg prompt env).whisperCalled = false) := by
  constructor
  · intro hne hdur
    simp only [processAudio, processAudioSteps]
    rw [if_neg hne, if_pos hdur]
    exact ⟨rfl, rfl⟩
  · intro hdur hrms
    have hne : audioData ≠ [] := by
      intro h
      rw [h] at hdur
      norm_num [List.flatten_nil] at hdur
    simp only [processAudio, processAudioSteps]
    rw [if_neg hne, if_neg (not_lt.mpr hdur), if_pos hrms]
    exact ⟨rfl, rfl⟩

/-- **C5, witness.** A single 1-sample frame (duration 1/16000 s) trips the
duration gate; a 8000-sample all-zero recording (duration exactly 0.5 s,
mean square 0) trips the silence gate; both end Ready without transcribing. -/
theorem quality_gates_skip_transcription_witness :
    ((processAudio [[0]] ⟨"sv", false, "cmd+enter"⟩ none
        ⟨true, .ok "hi", .ok "hi", false⟩).status = .ready ∧
     (processAudio [[0]] ⟨"sv", false, "cmd+enter"⟩ none
        ⟨true, .ok "hi", .ok "hi", false⟩).whisperCalled = false) ∧
    ((processAudio [List.replicate 8000 0] ⟨"sv", false, "cmd+enter"⟩ none
        ⟨true, .ok "hi", .ok "hi", false⟩).status = .ready ∧
     (processAudio [List.replicate 8000 0] ⟨"sv", false, "cmd+enter"⟩ none
        ⟨true, .ok "hi", .ok "hi", false⟩).whisperCalled = false) :=
  ⟨(quality_gates_skip_transcription [[0]] ⟨"sv", false, "cmd+enter"⟩ none
      ⟨true, .ok "hi", .ok "hi", false⟩).1
      (by decide)
      (by norm_num [List.flatten_cons, List.flatten_nil]),
   (quality_gates_skip_transcription [List.replicate 8000 0] ⟨"sv", false, "cmd+enter"⟩ none
      ⟨true, .ok "hi", .ok "hi", false⟩).2
      (by rw [flatten_singleton, List.length_replicate]; norm_num)
      (by rw [flatten_singleton, List.map_replicate, List.sum_replicate,
              List.length_replicate, mul_zero, smul_zero, zero_div]
          norm_num)⟩

/-- **C7.** When LLM correction is enabled with a non-empty instruction and
the correction service raises, `apply_gpt_correction` silently falls back to
the original transcript, and the session completes normally: the typed text
is the original transcript followed only by the standard trailing-space
separator that `process_transcript` appends on every path, the status returns
to Ready, and nothing propagates. -/
theorem correction_failure_falls_back (audioData : List Frame) (cfg : PConfig)
    (p e transcript : String) (env : PEnv)
    (hllm : cfg.useLlm = true) (hp : p ≠ "")
    (herr : env.correctResult = .error e)
    (hne : audioData ≠ [])
    (hdur : ¬ ((audioData.flatten.length : ℚ) / 16000 < 1/2))
    (hrms : ¬ ((audioData.flatten.map fun x => x * x).sum
        / (audioData.flatten.length : ℚ) < (5/1000) ^ 2))
    (htr : env.transcribeResult = .ok transcript)
    (hlen : ¬ (transcript = "" ∨ pyLen (pyStrip transcript) < 2))
    (hhal : (hallucinationPhrases.any fun ph =>
        pyLower (pyStrip transcript) = ph
          || pyStartsWith (pyLower (pyStrip transcript)) ph) = false)
    (htype : env.typingRaises = false) :
    (applyGptCorrection transcript (some p) env.correctResult).1 = transcript ∧
    processAudio audioData cfg (some p) env = ⟨.ready, true, some (transcript ++ " "), none⟩ := by
  have hfst : (applyGptCorrection transcript (some p) env.correctResult).1 = transcript := by
    rw [herr]
    unfold applyGptCorrection
    split
    · rfl
    · split <;> rfl
  have hts : transcript ≠ "" := fun h => hlen (Or.inl h)
  refine ⟨hfst, ?_⟩
  have hsteps : processAudioSteps audioData cfg (some p) env
      = .completed true (some (transcript ++ " ")) := by
    simp only [processAudioSteps]
    rw [if_neg hne, if_neg hdur, if_neg hrms]
    simp only [htr]
    rw [if_neg hlen, hhal, if_neg (by simp : ¬ (false = true)), if_pos hts,
      if_pos (show cfg.useLlm = true ∧ (some p).isSome = true ∧ ¬ (some p = some "") by
        simp [hllm, hp]),
      hfst, htype]
    rfl
  simp only [processAudio, hsteps]

/-- **C7, witness.** A concrete half-second recording at amplitude 1/10,
transcript `"hello there"`, instruction `"fix grammar"`, the correction
service raising `"boom"`: the typed text is the uncorrected transcript plus
the separator space. -/
theorem correction_failure_falls_back_witness :
    processAudio [List.replicate 8000 (1/10)] ⟨"sv", true, "cmd+enter"⟩
        (some "fix grammar")
        ⟨true, .ok "hello there", .error "boom", false⟩ =
      ⟨.ready, true, some ("hello there" ++ " "), none⟩ :=
  (correction_failure_falls_back [List.replicate 8000 (1/10)] ⟨"sv", true, "cmd+enter"⟩
    "fix grammar" "boom" "hello there" ⟨true, .ok "hello there", .error "boom", false⟩
    rfl (by decide) rfl (by decide)
    (by rw [flatten_singleton, List.length_replicate]; norm_num)
    (by rw [flatten_singleton, List.map_replicate, List.sum_replicate,
            List.length_replicate, nsmul_eq_mul]
        norm_num)
    rfl (by decide) (by decide) rfl).2

/-! ## The label/key round trip -/

/-- Every pynput key name has at least two characters, so a single-character
label can never hit the enum table. -/
theorem keyNames_min_length : keyNames.all (fun s => 2 ≤ pyLen s) = true := by decide

/-- No pynput key name begins with `v`, so no `vk_` label can hit the enum
table. -/
theorem keyNames_head_not_v :
    keyNames.all (fun s => s.data.head? != some 'v') = true := by decide

theorem mem_keyNames_two_le {s : String} (h : s ∈ keyNames) : 2 ≤ pyLen s := by
  have hall := List.all_eq_true.mp keyNames_min_length s h
  simpa using hall

theorem mem_keyNames_head_ne {s : String} (h : s ∈ keyNames) :
    s.data.head? ≠ some 'v' := by
  have hall := List.all_eq_true.mp keyNames_head_not_v s h
  simpa [bne_iff_ne] using hall

theorem charToDigit_digitChar {d : Nat} (hd : d < 10) :
    charToDigit (Char.ofNat (48 + d)) = d := by
  interval_cases d <;> decide

theorem isDigit_digitChar {d : Nat} (hd : d < 10) :
    (Char.ofNat (48 + d)).isDigit = true := by
  interval_cases d <;> decide

/-- Parsing the decimal representation of `n` recovers `n`: the `int()` of a
`vk_<code>` tail is the code that was formatted in. -/
theorem parseDecimal_natToStr (n : Nat) : parseDecimal (natToStr n) = some n := by
  rcases eq_or_ne n 0 with rfl | hn
  · decide
  · have hdig : ∀ d ∈ Nat.digits 10 n, d < 10 := fun d hd =>
      Nat.digits_lt_base (by norm_num) hd
    unfold natToStr natToChars
    rw [if_neg hn]
    unfold parseDecimal
    have h1 : ((Nat.digits 10 n).reverse.map fun d => Char.ofNat (48 + d)) ≠ [] := by
      simp [Nat.digits_ne_nil_iff_ne_zero, hn]
    have h2 : ((Nat.digits 10 n).reverse.map fun d => Char.ofNat (48 + d)).all
        Char.isDigit = true := by
      rw [List.all_eq_true]
      intro c hc
      obtain ⟨d, hd, rfl⟩ := List.mem_map.mp hc
      exact isDigit_digitChar (hdig d (List.mem_reverse.mp hd))
    rw [if_pos (⟨h1, h2⟩ :
      ((Nat.digits 10 n).reverse.map fun d => Char.ofNat (48 + d)) ≠ [] ∧
      (((Nat.digits 10 n).reverse.map fun d => Char.ofNat (48 + d)).all
        Char.isDigit) = true)]
    have hmap : (((Nat.digits 10 n).reverse.map fun d => Char.ofNat (48 + d)).map
        charToDigit).reverse = Nat.digits 10 n := by
      rw [List.map_map]
      have hcd : List.map (charToDigit ∘ fun d => Char.ofNat (48 + d))
          (Nat.digits 10 n).reverse = List.map id (Nat.digits 10 n).reverse :=
        List.map_congr_left fun d hd =>
          charToDigit_digitChar (hdig d (List.mem_reverse.mp hd))
      rw [hcd, List.map_id, List.reverse_reverse]
    rw [show (((⟨(Nat.digits 10 n).reverse.map fun d => Char.ofNat (48 + d)⟩ :
        String).data).map charToDigit).reverse = Nat.digits 10 n from hmap]
    rw [Nat.ofDigits_digits]

/-- **C8.** For every key the listener can deliver, converting it to a label
with `_key_to_label` and back with `_label_to_key` yields a key equivalent to
the original under `_keys_are_equal`; and a key representable only by a
synthetic `vk_<code>` label round-trips to the `KeyCode` with exactly that
virtual key code. -/
theorem label_roundTrip (k : PKey) (h : wellFormedKey k = true) :
    keysEqual (some k) (some (labelToKey (keyToLabel k))) = true ∧
    ∀ vk : Nat, k = .code none (some vk) →
      labelToKey (keyToLabel k) = .code none (some vk) := by
  cases k with
  | named n =>
      have hmem : n ∈ keyNames := by simpa [wellFormedKey] using h
      refine ⟨?_, fun vk hk => PKey.noConfusion hk⟩
      simp [keyToLabel, labelToKey, hmem, keysEqual]
  | code c vk =>
      cases c with
      | some ch =>
          have hlen : pyLen ch = 1 := by simpa [wellFormedKey] using h
          have hnotmem : ch ∉ keyNames := by
            intro hmem
            have := mem_keyNames_two_le hmem
            omega
          constructor
          · simp [keyToLabel, labelToKey, hnotmem, hlen, keysEqual]
          · intro vk' hk
            injection hk with h1 h2
            exact Option.noConfusion h1
      | none =>
          cases vk with
          | none => simp [wellFormedKey] at h
          | some v =>
              have hnotmem :
                  ¬ (keyNames.contains (⟨'v' :: 'k' :: '_' :: natToChars v⟩ : String) = true) := by
                intro hc
                have hmem : (⟨'v' :: 'k' :: '_' :: natToChars v⟩ : String) ∈ keyNames := by
                  simpa using hc
                exact mem_keyNames_head_ne hmem rfl
              have hnotmem2 : (⟨'v' :: 'k' :: '_' :: natToChars v⟩ : String) ∉ keyNames :=
                fun hmem => hnotmem (by simpa using hmem)
              have hlen : ¬ (pyLen (⟨'v' :: 'k' :: '_' :: natToChars v⟩ : String) = 1) := by
                intro hcontra
                simp [pyLen] at hcontra
              have hpre :
                  pyStartsWith (⟨'v' :: 'k' :: '_' :: natToChars v⟩ : String) "vk_" = true := by
                unfold pyStartsWith
                rw [show "vk_".data = ['v', 'k', '_'] from rfl]
                simp [List.isPrefixOf]
              have hres : labelToKey (keyToLabel (.code none (some v))) = .code none (some v) := by
                show labelToKey (⟨'v' :: 'k' :: '_' :: natToChars v⟩ : String) = _
                unfold labelToKey
                rw [if_neg hnotmem, if_neg hlen, if_pos hpre]
                rw [show pyDrop (⟨'v' :: 'k' :: '_' :: natToChars v⟩ : String) 3
                    = natToStr v from rfl]
                rw [parseDecimal_natToStr]
              refine ⟨by rw [hres]; simp [keysEqual], fun vk' hk => ?_⟩
              injection hk with h1 h2
              injection h2 with h3
              rw [hres, h3]

/-- **C8, witness.** The `KeyCode` with virtual key code 91 and no character:
its label is `vk_91`, and the round trip preserves the code and is
`keysEqual`-equivalent. -/
theorem label_roundTrip_witness :
    wellFormedKey (.code none (some 91)) = true ∧
    keysEqual (some (.code none (some 91)))
      (some (labelToKey (keyToLabel (.code none (some 91))))) = true ∧
    labelToKey (keyToLabel (.code none (some 91))) = .code none (some 91) :=
  ⟨by decide, (label_roundTrip _ (by decide)).1, (label_roundTrip _ (by decide)).2 91 rfl⟩

/-- **C6, witness for the amended theorem.** With hotkey `ctrl_l` and
auto-enter key `a`: pressing `ctrl_l` during auto-enter capture and pressing
`a` during hotkey capture are both rejected as cancellations. -/
theorem capture_conflict_rejects_witness :
    captureNewAutoEnterKey conflictDemoState (.named "ctrl_l") =
      ⟨exitAutoEnterKeyChangeMode conflictDemoState, true, true⟩ ∧
    captureNewHotkey conflictDemoState (.code (some "a") none) =
      ⟨exitChangeMode conflictDemoState, true, true⟩ :=
  ⟨(capture_conflict_rejects conflictDemoState (.named "ctrl_l")).1
      (by decide) (by decide),
   (capture_conflict_rejects conflictDemoState (.code (some "a") none)).2.1
      (by decide)⟩
